import Mathlib

/-!
Verification development for the `obs-websocket` TypeScript client.

The definitions below are a shallow embedding of the repository's source:

* `src/utils/crypto.ts` (`generateAuth`) together with the platform
  primitives it calls (`crypto.subtle.digest('SHA-256', ...)`, `btoa`,
  `TextEncoder.encode`), embedded as executable Lean functions
  (`sha256`, `base64Encode`, `utf8Encode`);
* `src/utils/event-emitter.ts` (`EventEmitter`);
* `src/obs-websocket.ts` (`OBSWebSocket`): message handling, request and
  batch correlation, disconnect/close teardown and reconnection backoff.

Machine integers are modelled as `Nat` with explicit reduction `% 2^32`
where the source relies on 32-bit arithmetic (inside SHA-256).
-/

namespace OBS

/-! ## SHA-256 (platform primitive `crypto.subtle.digest('SHA-256', _)`)

A byte is a `Nat` below 256; a word is a `Nat` below 2^32. -/

def M32 : Nat := 4294967296

def rotr32 (n x : Nat) : Nat :=
  ((x >>> n) ||| (x <<< (32 - n))) % M32

def ch32 (x y z : Nat) : Nat :=
  (x &&& y) ^^^ ((x ^^^ (M32 - 1)) &&& z)

def maj32 (x y z : Nat) : Nat :=
  (x &&& y) ^^^ (x &&& z) ^^^ (y &&& z)

def bigSigma0 (x : Nat) : Nat := rotr32 2 x ^^^ rotr32 13 x ^^^ rotr32 22 x

def bigSigma1 (x : Nat) : Nat := rotr32 6 x ^^^ rotr32 11 x ^^^ rotr32 25 x

def smallSigma0 (x : Nat) : Nat := rotr32 7 x ^^^ rotr32 18 x ^^^ (x >>> 3)

def smallSigma1 (x : Nat) : Nat := rotr32 17 x ^^^ rotr32 19 x ^^^ (x >>> 10)

def K256 : List Nat := [
  1116352408, 1899447441, 3049323471, 3921009573, 961987163, 1508970993, 2453635748, 2870763221,
  3624381080, 310598401, 607225278, 1426881987, 1925078388, 2162078206, 2614888103, 3248222580,
  3835390401, 4022224774, 264347078, 604807628, 770255983, 1249150122, 1555081692, 1996064986,
  2554220882, 2821834349, 2952996808, 3210313671, 3336571891, 3584528711, 113926993, 338241895,
  666307205, 773529912, 1294757372, 1396182291, 1695183700, 1986661051, 2177026350, 2456956037,
  2730485921, 2820302411, 3259730800, 3345764771, 3516065817, 3600352804, 4094571909, 275423344,
  430227734, 506948616, 659060556, 883997877, 958139571, 1322822218, 1537002063, 1747873779,
  1955562222, 2024104815, 2227730452, 2361852424, 2428436474, 2756734187, 3204031479, 3329325298]

structure Sha256State where
  a : Nat
  b : Nat
  c : Nat
  d : Nat
  e : Nat
  f : Nat
  g : Nat
  h : Nat
deriving DecidableEq, Repr

def sha256Init : Sha256State :=
  ⟨1779033703, 3144134277, 1013904242, 2773480762, 1359893119, 2600822924, 528734635, 1541459225⟩

/-- One extension step of the message schedule: appends
`σ1(w[n-2]) + w[n-7] + σ0(w[n-15]) + w[n-16] mod 2^32`. -/
def stepSchedule (w : List Nat) : List Nat :=
  let n := w.length
  w ++ [(smallSigma1 (w.getD (n - 2) 0) + w.getD (n - 7) 0 +
         smallSigma0 (w.getD (n - 15) 0) + w.getD (n - 16) 0) % M32]

def iterApp {α : Type} (f : α → α) : Nat → α → α
  | 0, a => a
  | n + 1, a => iterApp f n (f a)

/-- The 64-word message schedule of one 16-word block. -/
def schedule64 (block : List Nat) : List Nat := iterApp stepSchedule 48 block

def sha256Round (s : Sha256State) (kw : Nat × Nat) : Sha256State :=
  let t1 := (s.h + bigSigma1 s.e + ch32 s.e s.f s.g + kw.1 + kw.2) % M32
  let t2 := (bigSigma0 s.a + maj32 s.a s.b s.c) % M32
  ⟨(t1 + t2) % M32, s.a, s.b, s.c, (s.d + t1) % M32, s.e, s.f, s.g⟩

def processBlock (hv : Sha256State) (block : List Nat) : Sha256State :=
  let s := (K256.zip (schedule64 block)).foldl sha256Round hv
  ⟨(hv.a + s.a) % M32, (hv.b + s.b) % M32, (hv.c + s.c) % M32, (hv.d + s.d) % M32,
   (hv.e + s.e) % M32, (hv.f + s.f) % M32, (hv.g + s.g) % M32, (hv.h + s.h) % M32⟩

/-- Big-endian 4-byte grouping of a byte list into 32-bit words. -/
def bytesToWords : List Nat → List Nat
  | a :: b :: c :: d :: rest => (((a * 256 + b) * 256 + c) * 256 + d) :: bytesToWords rest
  | _ => []

def chunk16Fuel : Nat → List Nat → List (List Nat)
  | 0, _ => []
  | _, [] => []
  | fuel + 1, ws => ws.take 16 :: chunk16Fuel fuel (ws.drop 16)

/-- Split a word list into 16-word blocks (the fuel bounds the number of
blocks; `ws.length` always suffices since each block consumes ≥ 1 word). -/
def chunk16 (ws : List Nat) : List (List Nat) := chunk16Fuel ws.length ws

/-- SHA-256 padding: append `0x80`, zeros to 56 mod 64, then the bit length
as an 8-byte big-endian integer. -/
def padMessage (msg : List Nat) : List Nat :=
  let L := msg.length
  let k := (64 + 56 - ((L + 1) % 64)) % 64
  let lenBytes := (List.range 8).map (fun i => ((L * 8) >>> (8 * (7 - i))) % 256)
  msg ++ [128] ++ List.replicate k 0 ++ lenBytes

def wordToBytes (w : Nat) : List Nat :=
  [(w >>> 24) % 256, (w >>> 16) % 256, (w >>> 8) % 256, w % 256]

/-- SHA-256 of a byte list, as a 32-byte list. -/
def sha256 (msg : List Nat) : List Nat :=
  let blocks := chunk16 (bytesToWords (padMessage msg))
  let final := blocks.foldl processBlock sha256Init
  ([final.a, final.b, final.c, final.d, final.e, final.f, final.g, final.h].map wordToBytes).flatten

/-! ## Base64 (`btoa(String.fromCharCode(...bytes))`) and UTF-8
(`TextEncoder.encode`) -/

def b64Char (n : Nat) : Char :=
  "ABCDEFGHIJKLMNOPQRSTUVWXYZabcdefghijklmnopqrstuvwxyz0123456789+/".toList.getD n 'A'

def base64Chars : List Nat → List Char
  | [] => []
  | [a] => [b64Char (a >>> 2), b64Char ((a % 4) <<< 4), '=', '=']
  | [a, b] => [b64Char (a >>> 2), b64Char (((a % 4) <<< 4) + (b >>> 4)),
               b64Char ((b % 16) <<< 2), '=']
  | a :: b :: c :: rest =>
      b64Char (a >>> 2) :: b64Char (((a % 4) <<< 4) + (b >>> 4)) ::
      b64Char (((b % 16) <<< 2) + (c >>> 6)) :: b64Char (c % 64) :: base64Chars rest

def base64Encode (bs : List Nat) : String := String.mk (base64Chars bs)

def utf8EncodeChar (c : Char) : List Nat :=
  let n := c.toNat
  if n < 128 then [n]
  else if n < 2048 then [192 + n / 64, 128 + n % 64]
  else if n < 65536 then [224 + n / 4096, 128 + (n / 64) % 64, 128 + n % 64]
  else [240 + n / 262144, 128 + (n / 4096) % 64, 128 + (n / 64) % 64, 128 + n % 64]

def utf8Encode (s : String) : List Nat := (s.data.map utf8EncodeChar).flatten

/-! ## `generateAuth` (src/utils/crypto.ts) -/

/-- Embedding of `generateAuth` from `src/utils/crypto.ts`:
`base64Secret = btoa(SHA256(encode(password + salt)))`;
result `= btoa(SHA256(encode(base64Secret + challenge)))`. -/
def generateAuth (password salt challenge : String) : String :=
  let base64Secret := base64Encode (sha256 (utf8Encode (password ++ salt)))
  base64Encode (sha256 (utf8Encode (base64Secret ++ challenge)))

/-- The reference formula written from the words of the spec:
`response = base64(SHA256(base64(SHA256(password ‖ salt)) ‖ challenge))`. -/
def referenceAuthResponse (password salt challenge : String) : String :=
  base64Encode (sha256 (utf8Encode
    (base64Encode (sha256 (utf8Encode (password ++ salt))) ++ challenge)))

/-! ## Wire protocol data model (src/types/protocol.ts)

Payload objects (`requestData`, `responseData`, `eventData`) are opaque to
the core; they are modelled by an abstract value type `Payload`. An absent
field of the JSON is `Option.none`. -/

abbrev Payload := String

structure RequestStatusD where
  result : Bool
  code : Nat
  comment : Option String
deriving DecidableEq, Repr

structure RequestResponseD where
  requestType : String
  requestId : String
  requestStatus : RequestStatusD
  responseData : Option Payload
deriving DecidableEq, Repr

structure BatchResultItem where
  requestType : String
  requestStatus : RequestStatusD
  responseData : Option Payload
deriving DecidableEq, Repr

structure RequestBatchResponseD where
  requestId : String
  results : List BatchResultItem
deriving DecidableEq, Repr

structure HelloAuth where
  challenge : String
  salt : String
deriving DecidableEq, Repr

structure HelloD where
  obsWebSocketVersion : String
  rpcVersion : Nat
  authentication : Option HelloAuth
deriving DecidableEq, Repr

structure IdentifyD where
  rpcVersion : Nat
  authentication : Option String
  eventSubscriptions : Option Nat
deriving DecidableEq, Repr

structure IdentifiedD where
  negotiatedRpcVersion : Nat
deriving DecidableEq, Repr

structure EventD where
  eventType : String
  eventIntent : Nat
  eventData : Option Payload
deriving DecidableEq, Repr

structure RequestD where
  requestType : String
  requestId : String
  requestData : Option Payload
deriving DecidableEq, Repr

structure BatchRequestItem where
  requestType : String
  requestId : String
  requestData : Option Payload
deriving DecidableEq, Repr

structure RequestBatchD where
  requestId : String
  haltOnFailure : Option Bool
  executionType : Option Nat
  requests : List BatchRequestItem
deriving DecidableEq, Repr

/-- The tagged union `WebSocketMessage`; the constructor fixes the opcode. -/
inductive WebSocketMessage where
  | hello (d : HelloD)
  | identify (d : IdentifyD)
  | identified (d : IdentifiedD)
  | reidentify (eventSubscriptions : Option Nat)
  | event (d : EventD)
  | request (d : RequestD)
  | requestResponse (d : RequestResponseD)
  | requestBatch (d : RequestBatchD)
  | requestBatchResponse (d : RequestBatchResponseD)
deriving DecidableEq, Repr

/-- The `OpCode` table of src/types/protocol.ts. -/
def opCodeOf : WebSocketMessage → Nat
  | .hello _ => 0
  | .identify _ => 1
  | .identified _ => 2
  | .reidentify _ => 3
  | .event _ => 5
  | .request _ => 6
  | .requestResponse _ => 7
  | .requestBatch _ => 8
  | .requestBatchResponse _ => 9

/-! ## Errors thrown by the client (src/obs-websocket.ts) -/

/-- Embedding of the `OBSRequestError` class fields. -/
structure OBSRequestError where
  code : Nat
  comment : String
  requestType : String
deriving DecidableEq, Repr

/-- The errors the client can deliver to a caller or emit. -/
inductive OBSError where
  | requestError (e : OBSRequestError)
  | connectionClosed
  | authenticationRequired
  | notConnected
  | parseError (raw : String)
  | wsError
deriving DecidableEq, Repr

/-- Embedding of the JavaScript expression
`requestStatus.comment || "Unknown error"`: both an absent comment and an
empty-string comment are falsy and replaced by the default. -/
def commentOrDefault : Option String → String
  | none => "Unknown error"
  | some s => if s = "" then "Unknown error" else s

/-! ## Request correlation (handleRequestResponse / handleBatchResponse)

The `pendingRequests : Map<string, resolver>` of the source is modelled by
its key list in insertion order (a `Map` has unique keys). Settling a
pending promise is modelled by an explicit completion record naming the
request id and the delivered outcome. -/

/-- What a pending promise is settled with. -/
inductive Outcome where
  | resolved (data : Option Payload)
  | resolvedBatch (data : List (Option Payload))
  | rejected (e : OBSError)
deriving DecidableEq, Repr

/-- Result of feeding one response message to the correlator: the new
pending-key list, the settled promise (if any), and whether the
unknown-request warning was logged. -/
structure HandleResult where
  pending : List String
  completion : Option (String × Outcome)
  warnUnknown : Bool
deriving DecidableEq, Repr

/-- Embedding of `handleRequestResponse`: look up the id, warn and return if
absent, otherwise delete the entry and resolve on `result: true` or reject
with an `OBSRequestError` on `result: false`. -/
def handleRequestResponse (pending : List String) (msg : RequestResponseD) : HandleResult :=
  if msg.requestId ∈ pending then
    { pending := pending.erase msg.requestId
      completion := some (msg.requestId,
        if msg.requestStatus.result then
          Outcome.resolved msg.responseData
        else
          Outcome.rejected (.requestError
            ⟨msg.requestStatus.code, commentOrDefault msg.requestStatus.comment,
             msg.requestType⟩))
      warnUnknown := false }
  else
    { pending := pending, completion := none, warnUnknown := true }

/-- Embedding of the `results.map(...)` loop of `handleBatchResponse`: maps
each member to its `responseData` in server order, aborting at the first
member whose `requestStatus.result` is false by throwing its
`OBSRequestError`. -/
def collectBatch : List BatchResultItem → Except OBSRequestError (List (Option Payload))
  | [] => .ok []
  | r :: rs =>
    if r.requestStatus.result then
      match collectBatch rs with
      | .ok tail => .ok (r.responseData :: tail)
      | .error e => .error e
    else
      .error ⟨r.requestStatus.code, commentOrDefault r.requestStatus.comment, r.requestType⟩

/-- Outcome delivered for a batch: the collected payload list, or the
failure of the first failing member. -/
def batchOutcome (results : List BatchResultItem) : Outcome :=
  match collectBatch results with
  | .ok datas => .resolvedBatch datas
  | .error e => .rejected (.requestError e)

/-- Embedding of `handleBatchResponse`: look up the outer batch id, warn and
return if absent, otherwise delete the entry and settle with
`batchOutcome`. -/
def handleBatchResponse (pending : List String) (msg : RequestBatchResponseD) : HandleResult :=
  if msg.requestId ∈ pending then
    { pending := pending.erase msg.requestId
      completion := some (msg.requestId, batchOutcome msg.results)
      warnUnknown := false }
  else
    { pending := pending, completion := none, warnUnknown := true }

/-! ## Session state and observable effects (class OBSWebSocket) -/

/-- Mutable fields of the `OBSWebSocket` instance. `wsOpen` models
`this.ws !== null`; `reconnectTimer = some d` models a live timer that was
scheduled with delay `d`; `nextId` is the state of the fresh-request-id
source. -/
structure OBSState where
  wsOpen : Bool
  rpcVersion : Nat
  isConnected : Bool
  isIdentified : Bool
  pendingRequests : List String
  reconnectTimer : Option Nat
  reconnectDelay : Nat
  shouldReconnect : Bool
  nextId : Nat
deriving DecidableEq, Repr

/-- The `connected` getter: `isConnected && isIdentified`. -/
def connected (s : OBSState) : Bool := s.isConnected && s.isIdentified

def maxReconnectDelay : Nat := 30000

/-- Modelled from the spec: `generateRequestId` of the missing file
src/utils/id.ts (only its import is in src) — "generates a fresh unique
request id"; modelled as a counter rendered to a string. -/
def generateRequestId (n : Nat) : String := "req-" ++ toString n

/-- Externally observable effects of one operation, in program order:
frames handed to the transport, socket closes, promise settlements,
listener-facing event emissions, log lines and timer operations. -/
inductive Action where
  | sendFrame (m : WebSocketMessage)
  | closeSocket (code : Nat) (reason : String)
  | complete (id : String) (out : Outcome)
  | emitNamed (name : String) (data : Option Payload)
  | emitHello (d : HelloD)
  | emitIdentified (d : IdentifiedD)
  | emitClosed (code : Nat) (reason : String)
  | emitError (e : OBSError)
  | logWarn (text : String)
  | logError (text : String)
  | logInfo (text : String)
  | scheduleTimer (delay : Nat)
  | cancelTimer
deriving DecidableEq, Repr

/-- Promise settlements contained in an action list, in order. -/
def completionsOf (acts : List Action) : List (String × Outcome) :=
  acts.filterMap fun a =>
    match a with
    | .complete id out => some (id, out)
    | _ => none

/-! ## call / callBatch -/

/-- Embedding of `call`: throws when not connected; otherwise generates a
fresh id, records the pending entry and sends a Request frame. Returns the
new state, the generated id and the sent frame. -/
def call (s : OBSState) (requestType : String) (requestData : Option Payload) :
    Except OBSError (OBSState × String × WebSocketMessage) :=
  if !connected s then
    .error .notConnected
  else
    let requestId := generateRequestId s.nextId
    .ok ({ s with nextId := s.nextId + 1,
                  pendingRequests := s.pendingRequests ++ [requestId] },
         requestId,
         .request ⟨requestType, requestId, requestData⟩)

/-- Embedding of the member-id assignment in `callBatch`:
`requests.map(req => ({...req, requestId: generateRequestId()}))`, threading
the id counter left to right. -/
def assignMemberIds (n : Nat) : List (String × Option Payload) → List BatchRequestItem
  | [] => []
  | (t, d) :: rest => ⟨t, generateRequestId n, d⟩ :: assignMemberIds (n + 1) rest

/-- Embedding of `callBatch`: throws when not connected; otherwise generates
one outer batch id plus one fresh id per member (preserving caller order),
records a single pending entry under the outer id, and sends one
RequestBatch frame carrying the pass-through options. -/
def callBatch (s : OBSState) (requests : List (String × Option Payload))
    (haltOnFailure : Option Bool) (executionType : Option Nat) :
    Except OBSError (OBSState × String × WebSocketMessage) :=
  if !connected s then
    .error .notConnected
  else
    let requestId := generateRequestId s.nextId
    let members := assignMemberIds (s.nextId + 1) requests
    .ok ({ s with nextId := s.nextId + 1 + requests.length,
                  pendingRequests := s.pendingRequests ++ [requestId] },
         requestId,
         .requestBatch ⟨requestId, haltOnFailure, executionType, members⟩)

/-! ## identify (handshake step after Hello) -/

/-- Embedding of the guard chain in `identify`. JavaScript truthiness makes
an empty-string password falsy, so `hello.d.authentication && password`
requires a nonempty password, and `hello.d.authentication && !password`
throws the authentication-required error. Returns the Identify payload to
send, or the error that rejects the connect future. -/
def identifyMessage (eventSubscriptions : Nat) (hello : HelloD)
    (password : Option String) : Except OBSError IdentifyD :=
  match hello.authentication with
  | none => .ok ⟨hello.rpcVersion, none, some eventSubscriptions⟩
  | some a =>
    match password with
    | none => .error .authenticationRequired
    | some pw =>
      if pw = "" then
        .error .authenticationRequired
      else
        .ok ⟨hello.rpcVersion, some (generateAuth pw a.salt a.challenge),
             some eventSubscriptions⟩

/-- Frames sent on the wire while handling a Hello: the Identify frame when
`identify` built one, nothing when it threw before reaching `send`. -/
def helloFramesSent (eventSubscriptions : Nat) (hello : HelloD)
    (password : Option String) : List WebSocketMessage :=
  match identifyMessage eventSubscriptions hello password with
  | .ok d => [.identify d]
  | .error _ => []

/-! ## disconnect / handleClose / reconnection backoff -/

/-- Embedding of `disconnect`: disable reconnection, cancel a live timer,
close the socket with the normal-closure code, drop connected flags, reject
every pending entry with the connection-closed error, clear the map, emit
the closed notification. -/
def disconnect (s : OBSState) : OBSState × List Action :=
  let timerActs : List Action := if s.reconnectTimer.isSome then [.cancelTimer] else []
  let closeActs : List Action :=
    if s.wsOpen then [.closeSocket 1000 "Client disconnect"] else []
  let rejections := s.pendingRequests.map
    (fun id => Action.complete id (.rejected .connectionClosed))
  ({ s with shouldReconnect := false, reconnectTimer := none, wsOpen := false,
            isConnected := false, isIdentified := false, pendingRequests := [] },
   timerActs ++ closeActs ++ rejections ++ [.emitClosed 1000 "Client disconnect"])

/-- Embedding of `scheduleReconnect`: replace any live timer by a one-shot
timer armed with the current `reconnectDelay`. -/
def scheduleReconnect (s : OBSState) : OBSState × List Action :=
  let cancelActs : List Action := if s.reconnectTimer.isSome then [.cancelTimer] else []
  ({ s with reconnectTimer := some s.reconnectDelay },
   cancelActs ++ [.logInfo "Reconnecting soon", .scheduleTimer s.reconnectDelay])

/-- Embedding of the `setTimeout` callback of `scheduleReconnect`: when the
timer fires it clears itself, emits the reconnect signals and doubles the
delay up to the cap. A cancelled (absent) timer never fires. -/
def timerFire (s : OBSState) : OBSState × List Action :=
  match s.reconnectTimer with
  | none => (s, [])
  | some _ =>
    ({ s with reconnectTimer := none,
              reconnectDelay := min (s.reconnectDelay * 2) maxReconnectDelay },
     [.emitNamed "Reconnecting" none, .emitNamed "obs:reconnect" none])

/-- Embedding of `handleClose`: drop connected flags and the socket, reject
every pending entry with the connection-closed error, clear the map, emit
the closed notification, and schedule a reconnect when reconnection is
enabled and the close code is not the normal-closure code 1000. -/
def handleClose (s : OBSState) (code : Nat) (reason : String) :
    OBSState × List Action :=
  let rejections := s.pendingRequests.map
    (fun id => Action.complete id (.rejected .connectionClosed))
  let s1 : OBSState :=
    { s with isConnected := false, isIdentified := false, wsOpen := false,
             pendingRequests := [] }
  let baseActs := [Action.logInfo "WebSocket closed"] ++ rejections ++
    [Action.emitClosed code reason]
  if s1.shouldReconnect && code ≠ 1000 then
    let (s2, acts2) := scheduleReconnect s1
    (s2, baseActs ++ acts2)
  else
    (s1, baseActs)

/-! ## Inbound frame handling (handleMessage) -/

/-- An inbound frame before `JSON.parse`: either malformed (the parse
throws) or a decoded message. -/
inductive Frame where
  | malformed (raw : String)
  | wellFormed (m : WebSocketMessage)
deriving DecidableEq, Repr

/-- Embedding of `handleMessage`: parse failures are caught at the frame
boundary, logged and emitted as a diagnostic `obs:error`; decoded messages
are routed by opcode; client-to-server opcodes fall to the
unknown-opcode warning. -/
def handleMessage (s : OBSState) (f : Frame) : OBSState × List Action :=
  match f with
  | .malformed raw =>
      (s, [.logError "Failed to parse message", .emitError (.parseError raw)])
  | .wellFormed m =>
    match m with
    | .hello d => (s, [.emitHello d])
    | .identified d =>
        ({ s with rpcVersion := d.negotiatedRpcVersion }, [.emitIdentified d])
    | .event d => (s, [.emitNamed d.eventType d.eventData])
    | .requestResponse d =>
        let h := handleRequestResponse s.pendingRequests d
        ({ s with pendingRequests := h.pending },
         match h.completion with
         | some (id, out) => [.complete id out]
         | none => [.logWarn "Received response for unknown request"])
    | .requestBatchResponse d =>
        let h := handleBatchResponse s.pendingRequests d
        ({ s with pendingRequests := h.pending },
         match h.completion with
         | some (id, out) => [.complete id out]
         | none => [.logWarn "Received batch response for unknown request"])
    | _ => (s, [.logWarn "Unknown message opcode"])

/-! ## Event dispatch (src/utils/event-emitter.ts) -/

/-- A registered listener: `lid` models function identity (the key of the
`Set`), `behavior` tells, per payload, whether the call returns normally
(`none`) or throws (`some message`). -/
structure Listener where
  lid : Nat
  behavior : Option Payload → Option String

/-- Record of one listener invocation made by `emit`. -/
inductive CallRecord where
  | ok (lid : Nat) (data : Option Payload)
  | errorCaught (lid : Nat) (data : Option Payload) (err : String)
deriving DecidableEq, Repr

/-- The record produced by calling one listener inside try/catch. -/
def invokeListener (l : Listener) (data : Option Payload) : CallRecord :=
  match l.behavior data with
  | none => .ok l.lid data
  | some e => .errorCaught l.lid data e

/-- Embedding of the dispatch loop of `emit`: iterate the listener set in
insertion order; a throwing listener is caught and logged and the loop
continues with the next listener. -/
def emitRun : List Listener → Option Payload → List CallRecord
  | [], _ => []
  | l :: rest, data => invokeListener l data :: emitRun rest data

/-! ## Reconnection event traces -/

/-- External events driving the reconnection supervisor. -/
inductive REvent where
  | closeEv (code : Nat) (reason : String)
  | timerFireEv
  | disconnectEv
deriving DecidableEq, Repr

def stepEvent (s : OBSState) : REvent → OBSState × List Action
  | .closeEv code reason => handleClose s code reason
  | .timerFireEv => timerFire s
  | .disconnectEv => disconnect s

def runEvents (s : OBSState) : List REvent → OBSState × List Action
  | [] => (s, [])
  | e :: rest =>
    let p := stepEvent s e
    let q := runEvents p.1 rest
    (q.1, p.2 ++ q.2)

/-- Timer delays armed along the canonical abnormal-closure cycle: each
closure schedules a reconnect timer, then that timer fires (the reconnect
signal that precedes the next redial and hence the next closure). -/
def scheduledDelays (s : OBSState) (code : Nat) (reason : String) :
    Nat → List Nat
  | 0 => []
  | k + 1 =>
    let s1 := (handleClose s code reason).1
    let d := s1.reconnectTimer.getD 0
    let s2 := (timerFire s1).1
    d :: scheduledDelays s2 code reason k

/-- Actions that constitute (or arm) a reconnect signal. -/
def isReconnectSignal : Action → Bool
  | .scheduleTimer _ => true
  | .emitNamed "Reconnecting" _ => true
  | .emitNamed "obs:reconnect" _ => true
  | _ => false

/-! ## Shared lemmas -/

theorem collectBatch_all_success (rs : List BatchResultItem)
    (h : ∀ r ∈ rs, r.requestStatus.result = true) :
    collectBatch rs = .ok (rs.map (·.responseData)) := by
  induction rs with
  | nil => rfl
  | cons r rest ih =>
    have hr : r.requestStatus.result = true := h r (List.mem_cons_self r rest)
    have htail := ih (fun q hq => h q (List.mem_cons_of_mem r hq))
    simp [collectBatch, hr, htail]

theorem collectBatch_first_failure (pre : List BatchResultItem)
    (r : BatchResultItem) (post : List BatchResultItem)
    (hpre : ∀ q ∈ pre, q.requestStatus.result = true)
    (hr : r.requestStatus.result = false) :
    collectBatch (pre ++ r :: post) =
      .error ⟨r.requestStatus.code, commentOrDefault r.requestStatus.comment,
              r.requestType⟩ := by
  induction pre with
  | nil => simp [collectBatch, hr]
  | cons q rest ih =>
    have hq : q.requestStatus.result = true := hpre q (List.mem_cons_self q rest)
    have htail := ih (fun p hp => hpre p (List.mem_cons_of_mem q hp))
    simp [collectBatch, hq, htail]

/-! ## Claim theorems -/

/-- C3: a pending request resolves exactly with the responseData of the
RequestResponse whose requestId equals its own id when
`requestStatus.result` is true, rejects with the RequestFailure built from
the code, defaulted comment and requestType when it is false; a completion
always names the requestId of the message, other pending ids stay pending,
and `call` registers exactly its freshly generated id. -/
theorem request_correlation (pending : List String) (msg : RequestResponseD) :
    (msg.requestId ∈ pending → msg.requestStatus.result = true →
      (handleRequestResponse pending msg).completion =
        some (msg.requestId, .resolved msg.responseData)) ∧
    (msg.requestId ∈ pending → msg.requestStatus.result = false →
      (handleRequestResponse pending msg).completion =
        some (msg.requestId, .rejected (.requestError
          ⟨msg.requestStatus.code, commentOrDefault msg.requestStatus.comment,
           msg.requestType⟩))) ∧
    (∀ j out, (handleRequestResponse pending msg).completion = some (j, out) →
      j = msg.requestId) ∧
    (∀ j, j ∈ pending → j ≠ msg.requestId →
      j ∈ (handleRequestResponse pending msg).pending) ∧
    (∀ (s : OBSState) (t : String) (d : Option Payload), connected s = true →
      call s t d = .ok
        ({ s with nextId := s.nextId + 1,
                  pendingRequests := s.pendingRequests ++ [generateRequestId s.nextId] },
         generateRequestId s.nextId,
         .request ⟨t, generateRequestId s.nextId, d⟩)) := by
  refine ⟨?_, ?_, ?_, ?_, ?_⟩
  · intro hmem hres
    simp [handleRequestResponse, hmem, hres]
  · intro hmem hres
    simp [handleRequestResponse, hmem, hres]
  · intro j out hcomp
    by_cases hmem : msg.requestId ∈ pending
    · simp [handleRequestResponse, hmem] at hcomp
      exact hcomp.1.symm
    · simp [handleRequestResponse, hmem] at hcomp
  · intro j hj hne
    by_cases hmem : msg.requestId ∈ pending
    · simpa [handleRequestResponse, hmem] using List.mem_erase_of_ne hne |>.mpr hj
    · simpa [handleRequestResponse, hmem] using hj
  · intro s t d hconn
    simp [call, hconn]

/-- C3 witness: with pending ids a and b, a successful response correlated
to b resolves exactly b with its payload. -/
theorem request_correlation_witness :
    (handleRequestResponse ["a", "b"]
      ⟨"GetVersion", "b", ⟨true, 100, none⟩, some "v"⟩).completion =
      some ("b", .resolved (some "v")) :=
  (request_correlation ["a", "b"]
    ⟨"GetVersion", "b", ⟨true, 100, none⟩, some "v"⟩).1 (by decide) rfl

/-- C4: a Hello carrying an authentication challenge/salt with no password
supplied makes the identify step fail with the authentication-required
error, and no Identify frame is sent during that Hello handling. -/
theorem hello_auth_required_rejects (es : Nat) (obsv : String) (rpcv : Nat)
    (chal salt : String) :
    identifyMessage es ⟨obsv, rpcv, some ⟨chal, salt⟩⟩ none =
      .error .authenticationRequired ∧
    helloFramesSent es ⟨obsv, rpcv, some ⟨chal, salt⟩⟩ none = [] := by
  constructor
  · rfl
  · rfl

/-- C8: a response or batch response whose requestId matches no pending
entry is discarded with only the warning (pending map unchanged, no
completion); a matched entry is removed at the moment it is settled, so a
second identical response finds nothing and settles nothing twice. -/
theorem unmatched_response_discarded (pending : List String) :
    (∀ msg : RequestResponseD, msg.requestId ∉ pending →
        handleRequestResponse pending msg = ⟨pending, none, true⟩) ∧
    (∀ msg : RequestBatchResponseD, msg.requestId ∉ pending →
        handleBatchResponse pending msg = ⟨pending, none, true⟩) ∧
    (∀ msg : RequestResponseD, pending.Nodup → msg.requestId ∈ pending →
        (handleRequestResponse pending msg).completion.isSome = true ∧
        msg.requestId ∉ (handleRequestResponse pending msg).pending ∧
        handleRequestResponse (handleRequestResponse pending msg).pending msg =
          ⟨(handleRequestResponse pending msg).pending, none, true⟩) ∧
    (∀ msg : RequestBatchResponseD, pending.Nodup → msg.requestId ∈ pending →
        (handleBatchResponse pending msg).completion.isSome = true ∧
        msg.requestId ∉ (handleBatchResponse pending msg).pending ∧
        handleBatchResponse (handleBatchResponse pending msg).pending msg =
          ⟨(handleBatchResponse pending msg).pending, none, true⟩) := by
  refine ⟨?_, ?_, ?_, ?_⟩
  · intro msg hmem
    simp [handleRequestResponse, hmem]
  · intro msg hmem
    simp [handleBatchResponse, hmem]
  · intro msg hnd hmem
    have hout : msg.requestId ∉ pending.erase msg.requestId :=
      fun hin => ((List.Nodup.mem_erase_iff hnd).mp hin).1 rfl
    refine ⟨by simp [handleRequestResponse, hmem], ?_, ?_⟩
    · simpa [handleRequestResponse, hmem] using hout
    · simp [handleRequestResponse, hmem, hout]
  · intro msg hnd hmem
    have hout : msg.requestId ∉ pending.erase msg.requestId :=
      fun hin => ((List.Nodup.mem_erase_iff hnd).mp hin).1 rfl
    refine ⟨by simp [handleBatchResponse, hmem], ?_, ?_⟩
    · simpa [handleBatchResponse, hmem] using hout
    · simp [handleBatchResponse, hmem, hout]

/-- C8 witness: an unmatched response leaves the pending ids a and b in
place with no completion and the warning flag set. -/
theorem unmatched_response_discarded_witness :
    handleRequestResponse ["a", "b"]
      ⟨"GetVersion", "zzz", ⟨true, 100, none⟩, none⟩ = ⟨["a", "b"], none, true⟩ :=
  (unmatched_response_discarded ["a", "b"]).1
    ⟨"GetVersion", "zzz", ⟨true, 100, none⟩, none⟩ (by decide)

/-- C9: a frame whose data is not valid JSON is caught at the frame
boundary: the handler only logs the parse failure and emits a diagnostic
error event, the whole state (in particular the pending map and the
connected flags) is unchanged, the socket is not closed, and no pending
future is settled. -/
theorem malformed_frame_ignored (s : OBSState) (raw : String) :
    handleMessage s (.malformed raw) =
      (s, [.logError "Failed to parse message", .emitError (.parseError raw)]) ∧
    (handleMessage s (.malformed raw)).1.pendingRequests = s.pendingRequests ∧
    connected (handleMessage s (.malformed raw)).1 = connected s ∧
    (∀ c r, Action.closeSocket c r ∉ (handleMessage s (.malformed raw)).2) ∧
    completionsOf (handleMessage s (.malformed raw)).2 = [] := by
  refine ⟨rfl, rfl, rfl, ?_, rfl⟩
  intro c r
  simp [handleMessage]

/-- C2: a pending batch whose members all succeeded resolves with the list
of member payloads in server-declared order; otherwise it rejects with the
RequestFailure of the first member, in server order, whose
`requestStatus.result` is false. The state recorded by `callBatch` (and the
pending id the response is correlated by) is the same for every value of
the haltOnFailure/executionType options, so client-side result delivery
cannot depend on them and callers never receive partial results. -/
theorem batch_first_failure_rejects (pending : List String)
    (msg : RequestBatchResponseD) :
    (msg.requestId ∈ pending →
      (∀ r ∈ msg.results, r.requestStatus.result = true) →
      (handleBatchResponse pending msg).completion =
        some (msg.requestId, .resolvedBatch (msg.results.map (·.responseData)))) ∧
    (∀ pre r post, msg.requestId ∈ pending →
      msg.results = pre ++ r :: post →
      (∀ q ∈ pre, q.requestStatus.result = true) →
      r.requestStatus.result = false →
      (handleBatchResponse pending msg).completion =
        some (msg.requestId, .rejected (.requestError
          ⟨r.requestStatus.code, commentOrDefault r.requestStatus.comment,
           r.requestType⟩))) ∧
    (∀ (s : OBSState) (reqs : List (String × Option Payload))
        (hof1 hof2 : Option Bool) (et1 et2 : Option Nat),
      (callBatch s reqs hof1 et1).map (fun x => (x.1, x.2.1)) =
      (callBatch s reqs hof2 et2).map (fun x => (x.1, x.2.1))) := by
  refine ⟨?_, ?_, ?_⟩
  · intro hmem hall
    simp [handleBatchResponse, hmem, batchOutcome, collectBatch_all_success _ hall]
  · intro pre r post hmem hsplit hpre hr
    simp [handleBatchResponse, hmem, batchOutcome, hsplit,
          collectBatch_first_failure pre r post hpre hr]
  · intro s reqs hof1 hof2 et1 et2
    by_cases hconn : connected s
    · simp [callBatch, hconn, Except.map]
    · simp [callBatch, hconn]

/-- C2 witness: a two-member batch where member A succeeds and member B
fails rejects the whole batch with the failure of B. -/
theorem batch_first_failure_rejects_witness :
    (handleBatchResponse ["b1"]
      ⟨"b1", [⟨"A", ⟨true, 100, none⟩, some "ra"⟩,
              ⟨"B", ⟨false, 204, some "nope"⟩, none⟩]⟩).completion =
      some ("b1", .rejected (.requestError ⟨204, "nope", "B"⟩)) := by
  have h := (batch_first_failure_rejects ["b1"]
      ⟨"b1", [⟨"A", ⟨true, 100, none⟩, some "ra"⟩,
              ⟨"B", ⟨false, 204, some "nope"⟩, none⟩]⟩).2.1
    [⟨"A", ⟨true, 100, none⟩, some "ra"⟩] ⟨"B", ⟨false, 204, some "nope"⟩, none⟩ []
    (by decide) rfl (by decide) rfl
  simpa [commentOrDefault] using h

/-- C10: a failed response (or the first failing batch member) whose
`comment` is absent or empty is delivered as a RequestFailure whose comment
is exactly the string Unknown error, with the code and requestType taken
unchanged from the message. -/
theorem missing_comment_defaults (pending : List String) (msg : RequestResponseD) :
    commentOrDefault none = "Unknown error" ∧
    commentOrDefault (some "") = "Unknown error" ∧
    (msg.requestId ∈ pending → msg.requestStatus.result = false →
      (msg.requestStatus.comment = none ∨ msg.requestStatus.comment = some "") →
      (handleRequestResponse pending msg).completion =
        some (msg.requestId, .rejected (.requestError
          ⟨msg.requestStatus.code, "Unknown error", msg.requestType⟩))) ∧
    (∀ (bmsg : RequestBatchResponseD) pre r post, bmsg.requestId ∈ pending →
      bmsg.results = pre ++ r :: post →
      (∀ q ∈ pre, q.requestStatus.result = true) →
      r.requestStatus.result = false →
      (r.requestStatus.comment = none ∨ r.requestStatus.comment = some "") →
      (handleBatchResponse pending bmsg).completion =
        some (bmsg.requestId, .rejected (.requestError
          ⟨r.requestStatus.code, "Unknown error", r.requestType⟩))) := by
  refine ⟨rfl, rfl, ?_, ?_⟩
  · intro hmem hres hc
    have hdef : commentOrDefault msg.requestStatus.comment = "Unknown error" := by
      rcases hc with hc | hc <;> simp [hc, commentOrDefault]
    simp [handleRequestResponse, hmem, hres, hdef]
  · intro bmsg pre r post hmem hsplit hpre hr hc
    have hdef : commentOrDefault r.requestStatus.comment = "Unknown error" := by
      rcases hc with hc | hc <;> simp [hc, commentOrDefault]
    simp [handleBatchResponse, hmem, batchOutcome, hsplit, hdef,
          collectBatch_first_failure pre r post hpre hr]

/-- C10 witness: a failed response with an absent comment rejects with the
comment Unknown error while keeping code 204 and its requestType. -/
theorem missing_comment_defaults_witness :
    (handleRequestResponse ["x"]
      ⟨"GetVersion", "x", ⟨false, 204, none⟩, none⟩).completion =
      some ("x", .rejected (.requestError ⟨204, "Unknown error", "GetVersion"⟩)) :=
  (missing_comment_defaults ["x"]
    ⟨"GetVersion", "x", ⟨false, 204, none⟩, none⟩).2.2.1 (by decide) rfl (Or.inl rfl)

theorem completionsOf_append (l1 l2 : List Action) :
    completionsOf (l1 ++ l2) = completionsOf l1 ++ completionsOf l2 := by
  simp [completionsOf]

theorem completionsOf_rejectAll (ids : List String) (out : Outcome) :
    completionsOf (ids.map (fun id => Action.complete id out)) =
      ids.map (fun id => (id, out)) := by
  induction ids with
  | nil => rfl
  | cons a l ih => simp [completionsOf] at ih ⊢; exact ih

theorem completionsOf_cons (a : Action) (l : List Action) :
    completionsOf (a :: l) =
      (match a with
       | .complete id out => [(id, out)]
       | _ => []) ++ completionsOf l := by
  cases a <;> simp [completionsOf]

theorem completionsOf_nil : completionsOf [] = [] := rfl

/-- C5: whether the transport closes via explicit `disconnect` or via a
socket close event, every one of the outstanding pending requests and
batches is rejected with the connection-closed error (in map order), the
pending map becomes empty, and `connected` is false afterwards. -/
theorem teardown_rejects_all_pending (s : OBSState) (code : Nat) (reason : String) :
    completionsOf (disconnect s).2 =
      s.pendingRequests.map (fun id => (id, Outcome.rejected .connectionClosed)) ∧
    (disconnect s).1.pendingRequests = [] ∧
    connected (disconnect s).1 = false ∧
    completionsOf (handleClose s code reason).2 =
      s.pendingRequests.map (fun id => (id, Outcome.rejected .connectionClosed)) ∧
    (handleClose s code reason).1.pendingRequests = [] ∧
    connected (handleClose s code reason).1 = false := by
  refine ⟨?_, rfl, rfl, ?_, ?_, ?_⟩
  · unfold disconnect
    rcases ht : s.reconnectTimer.isSome <;> rcases hw : s.wsOpen <;>
      simp [ht, hw, completionsOf_cons, completionsOf_append, completionsOf_rejectAll,
            completionsOf_nil]
  · unfold handleClose
    simp only [scheduleReconnect]
    split
    · rcases ht : s.reconnectTimer.isSome <;>
        simp [ht, completionsOf_cons, completionsOf_append, completionsOf_rejectAll,
              completionsOf_nil]
    · simp [completionsOf_cons, completionsOf_append, completionsOf_rejectAll,
            completionsOf_nil]
  · unfold handleClose
    simp only [scheduleReconnect]
    split <;> rfl
  · unfold handleClose
    simp only [scheduleReconnect]
    split <;> rfl

theorem min_double_cap (a b : Nat) : min (min a b * 2) b = min (a * 2) b := by
  omega

theorem filter_signal_rejectAll (ids : List String) (out : Outcome) :
    (ids.map (fun id => Action.complete id out)).filter isReconnectSignal = [] := by
  induction ids with
  | nil => rfl
  | cons a l ih => simp [isReconnectSignal, ih]

theorem disconnect_silent (s : OBSState) :
    (disconnect s).2.filter isReconnectSignal = [] ∧
    (disconnect s).1.shouldReconnect = false ∧
    (disconnect s).1.reconnectTimer = none := by
  refine ⟨?_, rfl, rfl⟩
  unfold disconnect
  rcases ht : s.reconnectTimer.isSome <;> rcases hw : s.wsOpen <;>
    simp [ht, hw, isReconnectSignal, filter_signal_rejectAll]

theorem no_signal_when_disabled (evs : List REvent) :
    ∀ s : OBSState, s.shouldReconnect = false → s.reconnectTimer = none →
      (runEvents s evs).2.filter isReconnectSignal = [] := by
  induction evs with
  | nil => intro s _ _; rfl
  | cons e rest ih =>
    intro s hs ht
    have hstep : (stepEvent s e).2.filter isReconnectSignal = [] ∧
        (stepEvent s e).1.shouldReconnect = false ∧
        (stepEvent s e).1.reconnectTimer = none := by
      cases e with
      | closeEv code reason =>
        refine ⟨?_, ?_, ?_⟩ <;>
          simp [stepEvent, handleClose, hs, ht, isReconnectSignal,
                filter_signal_rejectAll]
      | timerFireEv =>
        simp [stepEvent, timerFire, ht, hs]
      | disconnectEv =>
        exact disconnect_silent s
    have htail := ih (stepEvent s e).1 hstep.2.1 hstep.2.2
    simp [runEvents, List.filter_append, hstep.1, htail]

theorem scheduledDelays_closed (k : Nat) :
    ∀ (s : OBSState) (code : Nat) (reason : String) (j : Nat),
      s.shouldReconnect = true → code ≠ 1000 →
      s.reconnectDelay = min (1000 * 2 ^ j) 30000 →
      scheduledDelays s code reason k =
        (List.range k).map (fun i => min (1000 * 2 ^ (j + i)) 30000) := by
  induction k with
  | zero => intro s code reason j _ _ _; rfl
  | succ k ih =>
    intro s code reason j hs hc hd
    have hcond : (s.shouldReconnect && decide (code ≠ 1000)) = true := by
      simp [hs, hc]
    have hstep1 : (handleClose s code reason).1 =
        { s with isConnected := false, isIdentified := false, wsOpen := false,
                 pendingRequests := [], reconnectTimer := some s.reconnectDelay } := by
      unfold handleClose
      simp only [scheduleReconnect]
      split
      · rfl
      · rename_i hfalse
        exact absurd hcond hfalse
    have hfire : (timerFire (handleClose s code reason).1).1 =
        { s with isConnected := false, isIdentified := false, wsOpen := false,
                 pendingRequests := [], reconnectTimer := none,
                 reconnectDelay := min (s.reconnectDelay * 2) maxReconnectDelay } := by
      rw [hstep1]
      rfl
    have hnext : min (s.reconnectDelay * 2) maxReconnectDelay =
        min (1000 * 2 ^ (j + 1)) 30000 := by
      rw [hd, maxReconnectDelay, min_double_cap]
      congr 1
      ring
    have htail := ih
      { s with isConnected := false, isIdentified := false, wsOpen := false,
               pendingRequests := [], reconnectTimer := none,
               reconnectDelay := min (s.reconnectDelay * 2) maxReconnectDelay }
      code reason (j + 1) hs hc (by simpa using hnext)
    simp only [scheduledDelays]
    rw [hfire, hstep1, htail, List.range_succ_eq_map, List.map_cons, List.map_map]
    refine List.cons_eq_cons.mpr ⟨?_, ?_⟩
    · simp [hd]
    · apply List.map_congr_left
      intro a _
      have hexp : j + 1 + a = j + (a + 1) := by omega
      simp [Function.comp, hexp]

/-- C6: starting from a freshly connected state (delay 1000, reconnection
enabled), the k-th abnormal closure of the close/redial cycle arms the
reconnect timer at delay min(1000·2^(k−1), 30000); and after an explicit
`disconnect` the timer is cancelled and reconnection disabled, so no
reconnect signal (timer arming or Reconnecting/obs:reconnect emission) is
ever produced by any later trace of close, timer and disconnect events. -/
theorem reconnect_backoff (s : OBSState) (code : Nat) (reason : String)
    (k : Nat) (evs : List REvent) :
    (s.shouldReconnect = true → s.reconnectDelay = 1000 → code ≠ 1000 →
      scheduledDelays s code reason k =
        (List.range k).map (fun i => min (1000 * 2 ^ i) 30000)) ∧
    (disconnect s).2.filter isReconnectSignal = [] ∧
    (runEvents (disconnect s).1 evs).2.filter isReconnectSignal = [] := by
  refine ⟨?_, (disconnect_silent s).1, ?_⟩
  · intro hs hd hc
    have h := scheduledDelays_closed k s code reason 0 hs hc
      (by rw [hd]; norm_num)
    simpa using h
  · exact no_signal_when_disabled evs (disconnect s).1
      (disconnect_silent s).2.1 (disconnect_silent s).2.2

/-- C6 witness: seven successive abnormal closures (code 1006) from a fresh
state arm the timer at 1000, 2000, 4000, 8000, 16000 and then twice the
30000 cap. -/
theorem reconnect_backoff_witness :
    scheduledDelays ⟨true, 1, true, true, [], none, 1000, true, 0⟩
        1006 "abnormal" 7 =
      [1000, 2000, 4000, 8000, 16000, 30000, 30000] := by
  have h := (reconnect_backoff ⟨true, 1, true, true, [], none, 1000, true, 0⟩
      1006 "abnormal" 7 []).1 rfl rfl (by decide)
  rw [h]
  decide

theorem emitRun_eq_map (ls : List Listener) (data : Option Payload) :
    emitRun ls data = ls.map (fun l => invokeListener l data) := by
  induction ls with
  | nil => rfl
  | cons l rest ih => simp [emitRun, ih]

theorem emitRun_append (l1 l2 : List Listener) (data : Option Payload) :
    emitRun (l1 ++ l2) data = emitRun l1 data ++ emitRun l2 data := by
  induction l1 with
  | nil => rfl
  | cons l rest ih => simp [emitRun, ih]

/-- C7: `emit` invokes every registered listener in insertion order with the
given payload (the list of invocation records is exactly the listener list
mapped through one guarded call); a listener that throws is caught and every
remaining listener is still invoked; and an Event frame hands the listener
registry exactly its eventType with its (possibly absent) eventData, so the
frame-handling path never observes a listener error. -/
theorem emit_delivers_to_all (ls : List Listener) (data : Option Payload)
    (s : OBSState) (d : EventD) :
    emitRun ls data = ls.map (fun l => invokeListener l data) ∧
    (emitRun ls data).length = ls.length ∧
    (∀ pre (l : Listener) post e, l.behavior data = some e →
      emitRun (pre ++ l :: post) data =
        emitRun pre data ++ .errorCaught l.lid data e :: emitRun post data) ∧
    handleMessage s (.wellFormed (.event d)) =
      (s, [.emitNamed d.eventType d.eventData]) := by
  refine ⟨emitRun_eq_map ls data, ?_, ?_, rfl⟩
  · rw [emitRun_eq_map]
    simp
  · intro pre l post e hbeh
    rw [emitRun_append]
    simp [emitRun, invokeListener, hbeh]

/-- C7 witness: with three listeners of which the middle one throws, all
three are invoked in order and the failure is recorded, not propagated. -/
theorem emit_delivers_to_all_witness :
    emitRun [⟨2, fun _ => none⟩, ⟨1, fun _ => some "boom"⟩, ⟨3, fun _ => none⟩]
        none =
      [.ok 2 none, .errorCaught 1 none "boom", .ok 3 none] := by
  have h := (emit_delivers_to_all [] none
      ⟨true, 1, true, true, [], none, 1000, true, 0⟩ ⟨"ExitStarted", 1, none⟩).2.2.1
    [⟨2, fun _ => none⟩] ⟨1, fun _ => some "boom"⟩ [⟨3, fun _ => none⟩] "boom" rfl
  calc emitRun [⟨2, fun _ => none⟩, ⟨1, fun _ => some "boom"⟩,
          ⟨3, fun _ => none⟩] none
      = emitRun ([⟨2, fun _ => none⟩] ++
          (⟨1, fun _ => some "boom"⟩ : Listener) :: [⟨3, fun _ => none⟩]) none := rfl
    _ = emitRun [⟨2, fun _ => none⟩] none ++
          .errorCaught 1 none "boom" :: emitRun [⟨3, fun _ => none⟩] none := h
    _ = [.ok 2 none, .errorCaught 1 none "boom", .ok 3 none] := rfl

set_option maxRecDepth 100000 in
/-- C1: the authentication solver is a pure function of password, salt and
challenge equal to the reference two-stage hash
base64(SHA256(base64(SHA256(password ++ salt)) ++ challenge)); every Hello
carrying a challenge/salt with a supplied (nonempty) password yields an
Identify payload whose authentication field is exactly that value; and on
the literal test vector the solver evaluates to the reference digest. -/
theorem auth_response_matches_spec :
    (∀ p s c, generateAuth p s c = referenceAuthResponse p s c) ∧
    (∀ (es rpcv : Nat) (obsv pw chal salt : String), pw ≠ "" →
      identifyMessage es ⟨obsv, rpcv, some ⟨chal, salt⟩⟩ (some pw) =
        .ok ⟨rpcv, some (referenceAuthResponse pw salt chal), some es⟩) ∧
    generateAuth "testpassword" "lM1GncleQOaCu9lT1yeUZhFYnqhsLLP1G5lAGo3ixaI="
        "+IxH4CnCiqpX1rM9scsNynZzbOe4KhDeYcTNS3PDaeY=" =
      "6Ih6ZE7fNq2xx1H/86u/cPeVIV79qvAdxBHNoBg2SnE=" := by
  refine ⟨?_, ?_, ?_⟩
  · intro p s c
    rfl
  · intro es rpcv obsv pw chal salt hpw
    simp [identifyMessage, hpw]
    rfl
  · decide

/-- C1 witness: on the test vector the Identify payload carries the literal
reference digest. -/
theorem auth_response_matches_spec_witness :
    identifyMessage 2047
        ⟨"5.5.2", 1, some ⟨"+IxH4CnCiqpX1rM9scsNynZzbOe4KhDeYcTNS3PDaeY=",
                          "lM1GncleQOaCu9lT1yeUZhFYnqhsLLP1G5lAGo3ixaI="⟩⟩
        (some "testpassword") =
      .ok ⟨1, some "6Ih6ZE7fNq2xx1H/86u/cPeVIV79qvAdxBHNoBg2SnE=", some 2047⟩ := by
  have h := auth_response_matches_spec
  have h2 := h.2.1 2047 1 "5.5.2" "testpassword"
      "+IxH4CnCiqpX1rM9scsNynZzbOe4KhDeYcTNS3PDaeY="
      "lM1GncleQOaCu9lT1yeUZhFYnqhsLLP1G5lAGo3ixaI=" (by decide)
  rw [h2, ← h.1, h.2.2]

end OBS
